import Mathlib

/-!
Shallow embedding of `src/scripts/train.py` (plr-exercise).

External collaborators (the network `Net`, automatic differentiation and
the Adam update rule) are abstracted as a `Framework` record of pure
functions; everything the repository's own code does (loop structure,
log accounting, seeding, optimizer wiring, accuracy arithmetic) is
embedded directly from the source. Real-valued quantities are modelled
as rationals; the process-global RNG state is a `Nat`.
-/

set_option autoImplicit false

/-- A batch: a list of inputs together with the aligned class labels
(the `(data, target)` pairs yielded by a loader). -/
structure Batch (α : Type) where
  data : List α
  target : List Nat
deriving DecidableEq

/-- Per-example negative log likelihood: minus the log-probability that
`output` assigns to the true class `t` (one row of `F.nll_loss`). -/
def nll_loss_example (output : List ℚ) (t : Nat) : ℚ := -(output.getD t 0)

/-- Batch NLL with sum reduction (`F.nll_loss(output, target, reduction="sum")`). -/
def nll_loss_sum (outputs : List (List ℚ)) (targets : List Nat) : ℚ :=
  ((outputs.zip targets).map (fun p => nll_loss_example p.1 p.2)).sum

/-- Batch NLL with the default mean reduction (`F.nll_loss(output, target)`). -/
def nll_loss_mean (outputs : List (List ℚ)) (targets : List Nat) : ℚ :=
  nll_loss_sum outputs targets / (outputs.length : ℚ)

/-- Helper for `argmaxIdx`: best index and value so far, next index, rest. -/
def argmaxFrom (bi : Nat) (bv : ℚ) (i : Nat) : List ℚ → Nat
  | [] => bi
  | x :: rest => if bv < x then argmaxFrom i x (i + 1) rest else argmaxFrom bi bv (i + 1) rest

/-- Index of the first maximal entry of a row (`output.argmax(dim=1)`). -/
def argmaxIdx : List ℚ → Nat
  | [] => 0
  | x :: rest => argmaxFrom 0 x 1 rest

/-- Number of rows whose argmax equals the label
(`pred.eq(target.view_as(pred)).sum().item()`). -/
def correctCount (outputs : List (List ℚ)) (targets : List Nat) : Nat :=
  ((outputs.zip targets).filter (fun p => argmaxIdx p.1 == p.2)).length

/-- The resolved command line settings (`self.args`). -/
structure Args where
  batch_size : Nat
  test_batch_size : Nat
  epochs : Nat
  lr : ℚ
  gamma : ℚ
  no_cuda : Bool
  dry_run : Bool
  seed : Nat
  log_interval : Nat
  save_model : Bool
deriving DecidableEq

/-- An Adam optimizer bound to one model: the current learning rate plus
the framework's abstract internal state (moment estimates, step count). -/
structure Optimizer (O : Type) where
  lr : ℚ
  state : O
deriving DecidableEq

/-- The external framework, abstracted: `Net()` parameter initialization
drawing from the RNG state, the forward pass per example, gradient
computation for the batch NLL loss (after `zero_grad`, the accumulated
gradient equals the fresh gradient), and one Adam update at a given
learning rate. -/
structure Framework (α P O : Type) where
  initNet : Nat → P × Nat
  forward : P → α → List ℚ
  grad : P → Batch α → P
  initOptState : O
  adamStep : ℚ → O → P → P → O × P

/-- `torch.manual_seed`: the global generator state after seeding is a
function of the seed alone, whatever the state was before. -/
def manual_seed (seed : Nat) : Nat := seed

/-- The `Train` object: configuration, data loaders, model parameters,
the module train/eval mode flag, and `self.optimizer`. -/
structure Train (α P O : Type) where
  args : Args
  train_loader : List (Batch α)
  test_loader : List (Batch α)
  model : P
  trainingMode : Bool
  optimizer : Optimizer O
deriving DecidableEq

/-- `len(loader.dataset)`: total number of examples behind a loader. -/
def datasetSize {α : Type} (loader : List (Batch α)) : Nat :=
  (loader.map (fun b => b.data.length)).sum

/-- One printed status line:
`Train Epoch: epoch [processed/total (percent%)]  Loss: loss`. -/
structure LogEntry where
  epoch : Nat
  processed : Nat
  total : Nat
  percent : ℚ
  loss : ℚ
deriving DecidableEq

/-- Result of one pass of the training loop body over the batch list. -/
structure EpochResult (P O : Type) where
  model : P
  optState : O
  logs : List LogEntry
  steps : Nat
deriving DecidableEq

/-- The body of `Train.train`'s loop over `enumerate(self.train_loader)`:
zero_grad, forward, mean NLL loss, backward, `self.optimizer.step()`
(at the stepping optimizer's current learning rate `lr`); every
`log_interval`-th batch index emits a status line with
`batch_idx * len(data)` of `len(dataset)` and `100 * batch_idx /
len(train_loader)` percent, and under `dry_run` the loop breaks right
after that first logged batch. `steps` counts executed loop bodies,
i.e. optimizer steps. -/
def trainLoop {α P O : Type} (F : Framework α P O) (args : Args) (lr : ℚ)
    (epoch dsSize nBatches : Nat) :
    Nat → P → O → List (Batch α) → EpochResult P O
  | _, p, o, [] => ⟨p, o, [], 0⟩
  | i, p, o, b :: rest =>
    let output := b.data.map (F.forward p)
    let loss := nll_loss_mean output b.target
    let g := F.grad p b
    let so := F.adamStep lr o p g
    if i % args.log_interval = 0 then
      let entry : LogEntry :=
        ⟨epoch, i * b.data.length, dsSize, 100 * (i : ℚ) / (nBatches : ℚ), loss⟩
      if args.dry_run then ⟨so.2, so.1, [entry], 1⟩
      else
        let r := trainLoop F args lr epoch dsSize nBatches (i + 1) so.2 so.1 rest
        ⟨r.model, r.optState, entry :: r.logs, r.steps + 1⟩
    else
      let r := trainLoop F args lr epoch dsSize nBatches (i + 1) so.2 so.1 rest
      ⟨r.model, r.optState, r.logs, r.steps + 1⟩

/-- `Train.__init__` restricted to what the repository's code computes:
`torch.manual_seed(self.args.seed)` overwrites the ambient generator
state `g0`, `Net()` draws its initial parameters from the re-seeded
generator, and `self.optimizer` is Adam over those parameters at
`self.args.lr`. Data loading is a parameter (external collaborator).
Returns the object and the generator state left behind. -/
def Train.init {α P O : Type} (F : Framework α P O) (args : Args)
    (train_data test_data : List (Batch α)) (g0 : Nat) : Train α P O × Nat :=
  let _ := g0
  let g1 := manual_seed args.seed
  let pg := F.initNet g1
  ({ args := args
     train_loader := train_data
     test_loader := test_data
     model := pg.1
     trainingMode := true
     optimizer := { lr := args.lr, state := F.initOptState } }, pg.2)

/-- `Train.train(epoch)`: sets the module to training mode and runs the
loop over the training loader, stepping `self.optimizer` (hence at
`self.optimizer.lr`). Returns the updated object, the status lines
printed, and the number of batches processed (= optimizer steps). -/
def Train.train {α P O : Type} (F : Framework α P O) (t : Train α P O)
    (epoch : Nat) : Train α P O × List LogEntry × Nat :=
  let r := trainLoop F t.args t.optimizer.lr epoch (datasetSize t.train_loader)
      t.train_loader.length 0 t.model t.optimizer.state t.train_loader
  ({ t with
      trainingMode := true
      model := r.model
      optimizer := { lr := t.optimizer.lr, state := r.optState } },
   r.logs, r.steps)

/-- The accumulation loop of `Train.test`: per batch, forward pass,
sum-reduced NLL added to `test_loss`, and the count of argmax-correct
predictions added to `correct`. No parameter is written. -/
def testPass {α P O : Type} (F : Framework α P O) (p : P) :
    List (Batch α) → ℚ × Nat
  | [] => (0, 0)
  | b :: rest =>
    let output := b.data.map (F.forward p)
    let r := testPass F p rest
    (nll_loss_sum output b.target + r.1, correctCount output b.target + r.2)

/-- `Train.test()`: sets eval mode, accumulates summed loss and correct
count over the test loader under `torch.no_grad()`, then divides both
by `len(test_loader.dataset)`. The division raises `ZeroDivisionError`
on an empty dataset, modelled as `none`; otherwise the result is
`some (mean test loss, accuracy)` and the method returns the accuracy. -/
def Train.test {α P O : Type} (F : Framework α P O) (t : Train α P O) :
    Train α P O × Option (ℚ × ℚ) :=
  let t1 := { t with trainingMode := false }
  if datasetSize t.test_loader = 0 then (t1, none)
  else
    let r := testPass F t.model t.test_loader
    (t1, some (r.1 / (datasetSize t.test_loader : ℚ),
               (r.2 : ℚ) / (datasetSize t.test_loader : ℚ)))

/-- `self.scheduler.step()` on a `StepLR(optimizer, step_size=1, gamma)`:
multiplies the wrapped optimizer's learning rate by `gamma` (never
invoked on `self.optimizer` by `objective`, which steps its own local
scheduler instead). -/
def Train.schedulerStep {α P O : Type} (t : Train α P O) : Train α P O :=
  { t with
      optimizer := { lr := t.optimizer.lr * t.args.gamma
                     state := t.optimizer.state } }

/-- One event observable in a trial's sequential loop. -/
inductive TrialEvent
  | trainEpoch (epoch : Nat)
  | evaluate
  | schedStep
deriving DecidableEq

/-- `trial.suggest_int("epochs", 1, 1)`: the sampled epoch count comes
from the degenerate range [1, 1], so it is always 1. -/
def sampled_epochs : Nat := 1

/-- What `objective` produces, together with the trace of what it did:
the final `Train` object, the local scheduler-decayed learning rate of
the unused local optimizer, the returned accuracy (`none` when the loop
never ran, leaving `accuracy` unbound, or when `t.test()` raised), and
the ordered event trace. -/
structure TrialResult (α P O : Type) where
  train : Train α P O
  localLR : ℚ
  accuracy : Option (ℚ × ℚ)
  events : List TrialEvent
deriving DecidableEq

/-- The `for epoch in range(epochs)` loop of `objective`: each iteration
runs `t.train(epoch)`, then `accuracy = t.test()`, then
`scheduler.step()` on the local scheduler, which only decays the local
optimizer's learning rate `lr` by `t.args.gamma`. -/
def objectiveLoop {α P O : Type} (F : Framework α P O) :
    Nat → Nat → Train α P O → ℚ → Option (ℚ × ℚ) →
    Train α P O × ℚ × Option (ℚ × ℚ) × List TrialEvent
  | 0, _, t, lr, acc => (t, lr, acc, [])
  | k + 1, epoch, t, lr, _ =>
    let tr := Train.train F t epoch
    let te := Train.test F tr.1
    let lr2 := lr * t.args.gamma
    let r := objectiveLoop F k (epoch + 1) te.1 lr2 te.2
    (r.1, r.2.1, r.2.2.1,
     TrialEvent.trainEpoch epoch :: TrialEvent.evaluate ::
       TrialEvent.schedStep :: r.2.2.2)

/-- `objective(trial)`: constructs `t = Train()` from the ambient
generator state `g0`, receives the sampled learning rate `lr` and epoch
count `epochs` from the trial, constructs a local
`optimizer = optim.Adam(t.model.parameters(), lr=lr)` and a local
`scheduler = StepLR(optimizer, step_size=1, gamma=t.args.gamma)` (the
local optimizer is never stepped against the model: `t.train` steps
`t.optimizer`), runs the epoch loop and returns the last accuracy. -/
def objective {α P O : Type} (F : Framework α P O) (args : Args)
    (train_data test_data : List (Batch α)) (g0 : Nat) (lr : ℚ)
    (epochs : Nat) : TrialResult α P O :=
  let tg := Train.init F args train_data test_data g0
  let r := objectiveLoop F epochs 0 tg.1 lr none
  { train := r.1, localLR := r.2.1, accuracy := r.2.2.1, events := r.2.2.2 }

/-- All (input, label) examples behind a loader, in order. -/
def flattenExamples {α : Type} : List (Batch α) → List (α × Nat)
  | [] => []
  | b :: rest => b.data.zip b.target ++ flattenExamples rest

/-- The loss values of the status lines of one full run (construct the
`Train` object from ambient generator state `g0`, then one call of
`Train.train`). -/
def run_epoch_losses {α P O : Type} (F : Framework α P O) (args : Args)
    (train_data test_data : List (Batch α)) (g0 : Nat) (epoch : Nat) :
    List ℚ :=
  ((Train.train F (Train.init F args train_data test_data g0).1 epoch).2.1).map
    LogEntry.loss

/-- The composite of one loop iteration of `objective` as it acts on the
`Train` object: train one epoch, then evaluate (the local scheduler step
does not touch the object). -/
def trialIter {α P O : Type} (F : Framework α P O) (epoch : Nat)
    (t : Train α P O) : Train α P O :=
  (Train.test F (Train.train F t epoch).1).1

/-- `iterFrom F start k t`: the `Train` object after the `k` loop
iterations with epoch numbers `start, start+1, ..., start+k-1`. -/
def iterFrom {α P O : Type} (F : Framework α P O) : Nat → Nat → Train α P O → Train α P O
  | _, 0, t => t
  | start, k + 1, t => iterFrom F (start + 1) k (trialIter F start t)

/-- The spec-side trace of a trial of `e` iterations starting at epoch
`start`: per iteration, one training epoch, one evaluation, one
scheduler advance, in that order. -/
def specTrialTrace : Nat → Nat → List TrialEvent
  | _, 0 => []
  | start, k + 1 =>
    TrialEvent.trainEpoch start :: TrialEvent.evaluate ::
      TrialEvent.schedStep :: specTrialTrace (start + 1) k

/-- A concrete instance of the abstract framework, used to evaluate the
embedded program on explicit inputs: parameters are one rational, the
forward pass produces two class scores, the gradient of a batch is its
size, and the update rule is plain gradient descent at the given rate. -/
def CF : Framework ℚ ℚ Unit where
  initNet := fun g => ((g : ℚ), g + 1)
  forward := fun p x => [p * x, x - p]
  grad := fun _ b => (b.data.length : ℚ)
  initOptState := ()
  adamStep := fun lr o p g => (o, p - lr * g)

/-- A stub framework whose model returns fixed logits and whose update
rule leaves the parameters alone. -/
def SF : Framework ℚ Unit Unit where
  initNet := fun g => ((), g)
  forward := fun _ _ => [1/2, 1/4]
  grad := fun _ _ => ()
  initOptState := ()
  adamStep := fun _ o p _ => (o, p)

/-- The source's default settings (`--lr 0.0020`, `--gamma 0.7`,
`--seed 1`, `--log-interval 10`), dry run off. -/
def cargs1 : Args where
  batch_size := 64
  test_batch_size := 1000
  epochs := 2
  lr := 1/500
  gamma := 7/10
  no_cuda := false
  dry_run := false
  seed := 1
  log_interval := 10
  save_model := false

/-- One-batch, one-example training and test data. -/
def ctr1 : List (Batch ℚ) := [⟨[1], [0]⟩]

/-- A concrete `Train` object with one perfectly classified test example. -/
def ct3 : Train ℚ ℚ Unit where
  args := cargs1
  train_loader := ctr1
  test_loader := ctr1
  model := 1
  trainingMode := true
  optimizer := ⟨1/500, ()⟩

/-- A concrete `Train` object whose test loader is empty. -/
def ct10 : Train ℚ ℚ Unit where
  args := cargs1
  train_loader := ctr1
  test_loader := []
  model := 1
  trainingMode := true
  optimizer := ⟨1/500, ()⟩

/-- Settings with the dry-run flag set. -/
def cargs4 : Args where
  batch_size := 1
  test_batch_size := 1000
  epochs := 2
  lr := 1/500
  gamma := 7/10
  no_cuda := false
  dry_run := true
  seed := 1
  log_interval := 10
  save_model := false

/-- A concrete dry-run `Train` object with two training batches. -/
def ct4 : Train ℚ ℚ Unit where
  args := cargs4
  train_loader := [⟨[1], [0]⟩, ⟨[2], [1]⟩]
  test_loader := ctr1
  model := 1
  trainingMode := true
  optimizer := ⟨1/500, ()⟩

/-- The scenario settings of the spec's logging property:
`batch_size=2`, `log_interval=1`, dry run off. -/
def cargs2 : Args where
  batch_size := 2
  test_batch_size := 1000
  epochs := 1
  lr := 1/500
  gamma := 7/10
  no_cuda := true
  dry_run := false
  seed := 1
  log_interval := 1
  save_model := false

/-- The scenario `Train` object: a 4-example training set in two
batches of two, under the fixed-logits model stub. -/
def ct2 : Train ℚ Unit Unit where
  args := cargs2
  train_loader := [⟨[0, 0], [0, 1]⟩, ⟨[0, 0], [1, 0]⟩]
  test_loader := [⟨[0], [0]⟩]
  model := ()
  trainingMode := true
  optimizer := ⟨1/500, ()⟩

/-- A two-example test set in one batch of two. -/
def cte5a : List (Batch ℚ) := [⟨[1, 2], [0, 1]⟩]

/-- The same two examples split into two batches of one. -/
def cte5b : List (Batch ℚ) := [⟨[1], [0]⟩, ⟨[2], [1]⟩]

/-- A concrete `Train` object over the one-batch test split. -/
def ct5a : Train ℚ ℚ Unit where
  args := cargs1
  train_loader := ctr1
  test_loader := cte5a
  model := 1
  trainingMode := true
  optimizer := ⟨1/500, ()⟩

/-- The same object over the two-batch test split. -/
def ct5b : Train ℚ ℚ Unit where
  args := cargs1
  train_loader := ctr1
  test_loader := cte5b
  model := 1
  trainingMode := true
  optimizer := ⟨1/500, ()⟩

theorem correctCount_le (outputs : List (List ℚ)) (targets : List Nat) :
    correctCount outputs targets ≤ outputs.length := by
  calc correctCount outputs targets ≤ (outputs.zip targets).length :=
        List.length_filter_le _ _
    _ = min outputs.length targets.length := List.length_zip _ _
    _ ≤ outputs.length := Nat.min_le_left _ _

theorem datasetSize_cons {α : Type} (b : Batch α) (rest : List (Batch α)) :
    datasetSize (b :: rest) = b.data.length + datasetSize rest := by
  simp [datasetSize]

theorem testPass_correct_le {α P O : Type} (F : Framework α P O) (p : P) :
    ∀ loader : List (Batch α), (testPass F p loader).2 ≤ datasetSize loader
  | [] => Nat.le_refl 0
  | b :: rest => by
    have h1 : correctCount (b.data.map (F.forward p)) b.target ≤ b.data.length := by
      have := correctCount_le (b.data.map (F.forward p)) b.target
      simpa using this
    have h2 := testPass_correct_le F p rest
    simp only [testPass, datasetSize_cons]
    exact Nat.add_le_add h1 h2

theorem zip_map_fst_map {α γ : Type} (fwd : α → γ) (g : γ → Nat → ℚ) :
    ∀ (xs : List α) (ts : List Nat),
      ((xs.map fwd).zip ts).map (fun p => g p.1 p.2)
        = (xs.zip ts).map (fun p => g (fwd p.1) p.2)
  | [], _ => rfl
  | _ :: _, [] => rfl
  | x :: xs, t :: ts => by
    simp [zip_map_fst_map fwd g xs ts]

theorem nll_loss_sum_map {α P O : Type} (F : Framework α P O) (p : P)
    (b : Batch α) :
    nll_loss_sum (b.data.map (F.forward p)) b.target
      = ((b.data.zip b.target).map
          (fun xt => nll_loss_example (F.forward p xt.1) xt.2)).sum := by
  simp [nll_loss_sum, zip_map_fst_map]

theorem testPass_loss_flatten {α P O : Type} (F : Framework α P O) (p : P) :
    ∀ loader : List (Batch α),
      (testPass F p loader).1
        = ((flattenExamples loader).map
            (fun xt => nll_loss_example (F.forward p xt.1) xt.2)).sum
  | [] => rfl
  | b :: rest => by
    simp only [testPass, flattenExamples, List.map_append, List.sum_append,
      nll_loss_sum_map, testPass_loss_flatten F p rest]

theorem flattenExamples_length {α : Type} :
    ∀ loader : List (Batch α),
      (∀ b ∈ loader, b.data.length = b.target.length) →
      (flattenExamples loader).length = datasetSize loader
  | [], _ => rfl
  | b :: rest, h => by
    have hb : b.data.length = b.target.length := h b (List.mem_cons_self _ _)
    have hr := flattenExamples_length rest (fun x hx => h x (List.mem_cons_of_mem _ hx))
    simp [flattenExamples, datasetSize_cons, List.length_zip, hr, hb]

theorem objectiveLoop_events {α P O : Type} (F : Framework α P O) :
    ∀ (k start : Nat) (t : Train α P O) (lr : ℚ) (acc : Option (ℚ × ℚ)),
      (objectiveLoop F k start t lr acc).2.2.2 = specTrialTrace start k
  | 0, _, _, _, _ => rfl
  | k + 1, start, t, lr, acc => by
    simp only [objectiveLoop, specTrialTrace]
    simp [objectiveLoop_events F k (start + 1)]

theorem objectiveLoop_acc_succ {α P O : Type} (F : Framework α P O)
    (k start : Nat) (t : Train α P O) (lr : ℚ) (acc : Option (ℚ × ℚ)) :
    (objectiveLoop F (k + 1) start t lr acc).2.2.1
      = (objectiveLoop F k (start + 1) (trialIter F start t)
          (lr * t.args.gamma) (Train.test F (Train.train F t start).1).2).2.2.1 := by
  simp only [objectiveLoop, trialIter]

theorem objectiveLoop_acc {α P O : Type} (F : Framework α P O) :
    ∀ (k start : Nat) (t : Train α P O) (lr : ℚ) (acc : Option (ℚ × ℚ)),
      (objectiveLoop F (k + 1) start t lr acc).2.2.1
        = (Train.test F (Train.train F (iterFrom F start k t) (start + k)).1).2
  | 0, start, t, lr, acc => by
    simp [objectiveLoop, iterFrom]
  | k + 1, start, t, lr, acc => by
    have hn : start + (k + 1) = (start + 1) + k := by omega
    rw [hn, objectiveLoop_acc_succ, objectiveLoop_acc F k (start + 1)]
    rfl

/-- C1 (code bug): in `objective`, the freshly constructed optimizer with
the trial's sampled learning rate is never the one stepped — `t.train`
steps `t.optimizer`, built at the base configuration's learning rate. On
a concrete trial with sampled rate 1/10 over base rate 1/500, the
parameter after the trial equals one update at the base rate and differs
from one update at the sampled rate. -/
theorem claim_C1_sampled_lr_not_applied :
    (objective CF cargs1 ctr1 ctr1 0 (1/10) sampled_epochs).train.model
        = (CF.adamStep cargs1.lr CF.initOptState 1 1).2 ∧
    (objective CF cargs1 ctr1 ctr1 0 (1/10) sampled_epochs).train.model
        ≠ (CF.adamStep (1/10) CF.initOptState 1 1).2 := by
  constructor
  · norm_num [objective, objectiveLoop, sampled_epochs, Train.init, Train.train,
      Train.test, trainLoop, testPass, manual_seed, datasetSize, nll_loss_mean,
      nll_loss_sum, nll_loss_example, correctCount, argmaxIdx, argmaxFrom,
      CF, cargs1, ctr1]
  · norm_num [objective, objectiveLoop, sampled_epochs, Train.init, Train.train,
      Train.test, trainLoop, testPass, manual_seed, datasetSize, nll_loss_mean,
      nll_loss_sum, nll_loss_example, correctCount, argmaxIdx, argmaxFrom,
      CF, cargs1, ctr1]

/-- C3: whenever evaluation returns a value, it is the correct-prediction
count divided by the test-set size, and it lies in [0, 1]. -/
theorem claim_C3_accuracy_fraction_in_unit_interval {α P O : Type}
    (F : Framework α P O) (t : Train α P O) (ml acc : ℚ)
    (h : (Train.test F t).2 = some (ml, acc)) :
    acc = ((testPass F t.model t.test_loader).2 : ℚ)
        / (datasetSize t.test_loader : ℚ) ∧ 0 ≤ acc ∧ acc ≤ 1 := by
  by_cases hn : datasetSize t.test_loader = 0
  · simp [Train.test, hn] at h
  · simp [Train.test, hn] at h
    obtain ⟨hml, hacc⟩ := h
    have hnpos : 0 < (datasetSize t.test_loader : ℚ) := by
      exact_mod_cast Nat.pos_of_ne_zero hn
    refine ⟨hacc.symm, ?_, ?_⟩
    · rw [← hacc]
      exact div_nonneg (by positivity) hnpos.le
    · rw [← hacc]
      rw [div_le_one hnpos]
      exact_mod_cast testPass_correct_le F t.model t.test_loader

/-- C3 witness: on a concrete one-example test set classified correctly,
the returned accuracy is 1 and lies in [0, 1]. -/
theorem claim_C3_witness :
    (1 : ℚ) = ((testPass CF ct3.model ct3.test_loader).2 : ℚ)
        / (datasetSize ct3.test_loader : ℚ) ∧ 0 ≤ (1 : ℚ) ∧ (1 : ℚ) ≤ 1 :=
  claim_C3_accuracy_fraction_in_unit_interval CF ct3 (-1) 1 (by
    norm_num [Train.test, testPass, datasetSize, nll_loss_sum, nll_loss_example,
      correctCount, argmaxIdx, argmaxFrom, CF, ct3, ctr1, cargs1])

/-- C4: with the dry-run flag set and a non-empty training loader, one
call of the training epoch processes exactly one batch — one optimizer
step — and emits exactly one status line. -/
theorem claim_C4_dry_run_single_batch {α P O : Type} (F : Framework α P O)
    (t : Train α P O) (epoch : Nat) (hdry : t.args.dry_run = true)
    (_hli : 0 < t.args.log_interval) (hne : t.train_loader ≠ []) :
    (Train.train F t epoch).2.2 = 1 ∧ (Train.train F t epoch).2.1.length = 1 := by
  rcases List.exists_cons_of_ne_nil hne with ⟨b, rest, hbl⟩
  simp [Train.train, hbl, trainLoop, hdry]

/-- C4 witness: the concrete dry-run object with two training batches
performs exactly one step and prints exactly one line. -/
theorem claim_C4_witness :
    (Train.train CF ct4 0).2.2 = 1 ∧ (Train.train CF ct4 0).2.1.length = 1 :=
  claim_C4_dry_run_single_batch CF ct4 0 rfl (by decide) (by decide)

/-- C7: evaluation never writes the model parameters nor the optimizer —
only the module's train/eval mode flag changes. -/
theorem claim_C7_test_preserves_model {α P O : Type} (F : Framework α P O)
    (t : Train α P O) :
    (Train.test F t).1.model = t.model ∧
    (Train.test F t).1.optimizer = t.optimizer := by
  by_cases hn : datasetSize t.test_loader = 0 <;> simp [Train.test, hn]

/-- C8: a full run (construct the `Train` object, then one training
epoch) yields the same logged loss values whatever the ambient generator
state was before the run, because `torch.manual_seed(args.seed)`
overwrites it: the run is a function of seed, configuration and data. -/
theorem claim_C8_epoch_losses_deterministic {α P O : Type}
    (F : Framework α P O) (args : Args)
    (train_data test_data : List (Batch α)) (epoch : Nat) (g1 g2 : Nat) :
    run_epoch_losses F args train_data test_data g1 epoch
      = run_epoch_losses F args train_data test_data g2 epoch := rfl

/-- C9: two trials of the same search run — identical configuration and
data, arbitrary ambient generator states and arbitrary sampled learning
rates, epoch count from the degenerate range — return identical
objective values, since the sampled rate never reaches the stepping
optimizer and the trial re-seeds from the same configured seed. -/
theorem claim_C9_all_trials_identical {α P O : Type} (F : Framework α P O)
    (args : Args) (train_data test_data : List (Batch α))
    (g1 g2 : Nat) (lr1 lr2 : ℚ) :
    ((objective F args train_data test_data g1 lr1 sampled_epochs).accuracy).map Prod.snd
      = ((objective F args train_data test_data g2 lr2 sampled_epochs).accuracy).map Prod.snd := rfl

/-- C10: evaluation divides by the test-set size with no guard: an empty
test set yields no value (the division raises), and a non-empty one
yields a well-defined accuracy in [0, 1]. -/
theorem claim_C10_empty_testset_guard {α P O : Type} (F : Framework α P O)
    (t : Train α P O) :
    (datasetSize t.test_loader = 0 → (Train.test F t).2 = none) ∧
    (0 < datasetSize t.test_loader →
      ∃ ml acc, (Train.test F t).2 = some (ml, acc) ∧ 0 ≤ acc ∧ acc ≤ 1) := by
  constructor
  · intro hn
    simp [Train.test, hn]
  · intro hn
    have hne : datasetSize t.test_loader ≠ 0 := Nat.pos_iff_ne_zero.mp hn
    have hnpos : 0 < (datasetSize t.test_loader : ℚ) := by exact_mod_cast hn
    refine ⟨(testPass F t.model t.test_loader).1 / (datasetSize t.test_loader : ℚ),
      ((testPass F t.model t.test_loader).2 : ℚ) / (datasetSize t.test_loader : ℚ),
      ?_, ?_, ?_⟩
    · simp [Train.test, hne]
    · exact div_nonneg (by positivity) hnpos.le
    · rw [div_le_one hnpos]
      exact_mod_cast testPass_correct_le F t.model t.test_loader

/-- C10 witness: the empty concrete test set yields no value; the
non-empty one yields an accuracy in [0, 1]. -/
theorem claim_C10_witness :
    (Train.test CF ct10).2 = none ∧
    (∃ ml acc, (Train.test CF ct3).2 = some (ml, acc) ∧ 0 ≤ acc ∧ acc ≤ 1) :=
  ⟨(claim_C10_empty_testset_guard CF ct10).1 (by decide),
   (claim_C10_empty_testset_guard CF ct3).2 (by decide)⟩

/-- C2 counterexample: in the spec's scenario (4-example training set,
two batches of two, log every batch), the two logged batch-progress
fields read 0/4 (0%) then 2/4 (50%) — not 2/4 (50%) then 4/4 (100%) as
the claim states. -/
theorem claim_C2_counterexample :
    ((Train.train SF ct2 0).2.1).map (fun e => (e.processed, e.total, e.percent))
        = [(0, 4, 0), (2, 4, 50)] ∧
    ((Train.train SF ct2 0).2.1).map (fun e => (e.processed, e.total, e.percent))
        ≠ [(2, 4, (50 : ℚ)), (4, 4, 100)] := by
  have h : ((Train.train SF ct2 0).2.1).map
      (fun e => (e.processed, e.total, e.percent)) = [(0, 4, 0), (2, 4, 50)] := by
    norm_num [Train.train, trainLoop, datasetSize, nll_loss_mean, nll_loss_sum,
      nll_loss_example, SF, ct2, cargs2]
  refine ⟨h, ?_⟩
  rw [h]
  decide

/-- C2 amended: in the scenario, one call of the training epoch logs
exactly two status lines whose batch-progress fields read 0/4 (0%) for
the first batch and 2/4 (50%) for the second — the processed count shown
is `batch_idx * len(data)` (the samples before the current batch) and the
percentage is `100 * batch_idx / len(train_loader)`. -/
theorem claim_C2_amended_progress_fields {α P O : Type} (F : Framework α P O)
    (t : Train α P O) (epoch : Nat) (b1 b2 : Batch α)
    (hl : t.train_loader = [b1, b2]) (h1 : b1.data.length = 2)
    (h2 : b2.data.length = 2) (hli : t.args.log_interval = 1)
    (hdry : t.args.dry_run = false) :
    ((Train.train F t epoch).2.1).map (fun e => (e.processed, e.total, e.percent))
      = [(0, 4, 0), (2, 4, 50)] := by
  norm_num [Train.train, trainLoop, datasetSize, hl, h1, h2, hli, hdry]

/-- C2 witness: the amended statement evaluated on the concrete scenario
object. -/
theorem claim_C2_witness :
    ((Train.train SF ct2 0).2.1).map (fun e => (e.processed, e.total, e.percent))
      = [(0, 4, 0), (2, 4, 50)] :=
  claim_C2_amended_progress_fields SF ct2 0 ⟨[0, 0], [0, 1]⟩ ⟨[0, 0], [1, 0]⟩
    rfl rfl rfl rfl rfl

/-- C5: on a non-empty test set whose batches align data and labels, the
reported mean test loss is the sum of per-example NLL losses over all
examples divided by the test-set size; in particular it does not depend
on how the examples are split into batches. -/
theorem claim_C5_mean_loss_batching_independent {α P O : Type}
    (F : Framework α P O) (t : Train α P O)
    (hlen : ∀ b ∈ t.test_loader, b.data.length = b.target.length)
    (hn : 0 < datasetSize t.test_loader) :
    ((Train.test F t).2).map Prod.fst
        = some (((flattenExamples t.test_loader).map
            (fun xt => nll_loss_example (F.forward t.model xt.1) xt.2)).sum
          / (datasetSize t.test_loader : ℚ)) ∧
    ∀ t2 : Train α P O, t2.model = t.model →
      (∀ b ∈ t2.test_loader, b.data.length = b.target.length) →
      flattenExamples t2.test_loader = flattenExamples t.test_loader →
      ((Train.test F t2).2).map Prod.fst = ((Train.test F t).2).map Prod.fst := by
  have hne : datasetSize t.test_loader ≠ 0 := by omega
  constructor
  · simp [Train.test, hne, testPass_loss_flatten]
  · intro t2 hm hlen2 hfl
    have hsz : datasetSize t2.test_loader = datasetSize t.test_loader := by
      rw [← flattenExamples_length _ hlen2, ← flattenExamples_length _ hlen, hfl]
    have hne2 : datasetSize t2.test_loader ≠ 0 := by omega
    simp [Train.test, hne, hne2, testPass_loss_flatten, hfl, hsz, hm]

/-- C5 witness: the same two test examples, once as one batch of two and
once as two batches of one, report the same mean loss, equal to the
summed per-example losses over the dataset size. -/
theorem claim_C5_witness :
    ((Train.test CF ct5a).2).map Prod.fst
        = some (((flattenExamples ct5a.test_loader).map
            (fun xt => nll_loss_example (CF.forward ct5a.model xt.1) xt.2)).sum
          / (datasetSize ct5a.test_loader : ℚ)) ∧
    ((Train.test CF ct5b).2).map Prod.fst = ((Train.test CF ct5a).2).map Prod.fst :=
  ⟨(claim_C5_mean_loss_batching_independent CF ct5a (by decide) (by decide)).1,
   (claim_C5_mean_loss_batching_independent CF ct5a (by decide) (by decide)).2
     ct5b rfl (by decide) (by decide)⟩

/-- C6: for a sampled epoch count of at least one, a trial runs exactly
that many iterations of train-then-evaluate-then-scheduler-advance, in
that order, and returns the result of the final iteration's
evaluation. -/
theorem claim_C6_trial_structure {α P O : Type} (F : Framework α P O)
    (args : Args) (train_data test_data : List (Batch α)) (g0 : Nat)
    (lr : ℚ) (e : Nat) (he : 1 ≤ e) :
    (objective F args train_data test_data g0 lr e).events = specTrialTrace 0 e ∧
    (objective F args train_data test_data g0 lr e).accuracy
      = (Train.test F (Train.train F
          (iterFrom F 0 (e - 1) (Train.init F args train_data test_data g0).1)
          (e - 1)).1).2 := by
  obtain ⟨k, rfl⟩ : ∃ k, e = k + 1 := ⟨e - 1, by omega⟩
  constructor
  · simp [objective, objectiveLoop_events]
  · simp only [objective]
    rw [objectiveLoop_acc]
    norm_num

/-- C6 witness: a one-epoch trial's trace and returned evaluation on a
concrete instance. -/
theorem claim_C6_witness :
    (objective CF cargs1 ctr1 ctr1 0 2 1).events = specTrialTrace 0 1 ∧
    (objective CF cargs1 ctr1 ctr1 0 2 1).accuracy
      = (Train.test CF (Train.train CF
          (iterFrom CF 0 (1 - 1) (Train.init CF cargs1 ctr1 ctr1 0).1)
          (1 - 1)).1).2 :=
  claim_C6_trial_structure CF cargs1 ctr1 ctr1 0 2 1 (by decide)
